import Mathlib

/-!
Shallow embedding of `api.py` from the GiftGiver backend, together with
theorems settling the frozen claims about its specification.

Conventions of the embedding:
* Python `None` / strings / numbers / lists / dicts that can occur in a form
  payload are modelled by the inductive type `Value`; a JSON object is an
  association list with unique keys, looked up with `List.lookup`.
* Python floats are modelled by `ℚ`; the only float operations the code
  performs are parsing decimal literals, comparison and swapping, all of
  which are exact on the decimal strings that reach them.
* The regular expressions `RANGE_PATTERN` and `\d+(\.\d+)?` are embedded as
  deterministic scanners over `List Char`.  For these particular patterns
  deterministic maximal munch coincides with Python's backtracking search:
  no character that can follow a greedy `\d+` (whitespace, `.`, `-`, `t`,
  `T`, en/em dash) is itself a digit, and a fractional part `(\.\d+)?`
  that matched cannot be given up in favour of a `..` separator (the
  character after the `.` is a digit, never a second `.`).
* Fallible operations (the OAuth exchange) return `Except`.
-/

namespace GiftGiver

/-- A Python value as it can occur in a form payload. -/
inductive Value where
  | vnone
  | vstr (s : String)
  | vnum (n : Int)
  | vlist (xs : List Value)
  | vdict (kvs : List (String × Value))

/-- A JSON object / Python dict, represented as an association list with
unique keys; `List.lookup` is dict access. -/
abbrev Payload := List (String × Value)

/-! ### String primitives

Python's `str.replace` / `str.split` / `str.strip` / `str.join` and the
`in` test are embedded as character-list functions (the core library's
counterparts do not reduce inside the kernel). -/

/-- One pass of `str.replace`: replace every non-overlapping occurrence
of `p :: ps` left to right, continuing after the replaced text.  The
recursion is driven structurally by a fuel argument so that the kernel
can evaluate it; every step consumes at least one character, so fuel
equal to the input length (as supplied by `strReplace`) never runs out
and the zero-fuel arm is unreachable. -/
def replaceAux (p : Char) (ps repl : List Char) : Nat → List Char → List Char
  | _, [] => []
  | 0, cs => cs
  | fuel + 1, c :: rest =>
    if (p :: ps).isPrefixOf (c :: rest) then
      repl ++ replaceAux p ps repl fuel (rest.drop ps.length)
    else c :: replaceAux p ps repl fuel rest

/-- Python `s.replace(pat, repl)`.  This program only ever replaces
non-empty patterns, so the empty-pattern case (where Python would
interleave) is the identity. -/
def strReplace (s pat repl : String) : String :=
  match pat.toList with
  | [] => s
  | p :: ps => (replaceAux p ps repl.toList s.toList.length s.toList).asString

/-- Accumulating worker for `pySplit`. -/
def pySplitAux (sep : Char) (cs acc : List Char) : List String :=
  match cs with
  | [] => [acc.reverse.asString]
  | c :: rest =>
    if c == sep then acc.reverse.asString :: pySplitAux sep rest []
    else pySplitAux sep rest (c :: acc)

/-- Python `s.split(sep)` for a one-character separator: splits at every
occurrence, keeping empty fields (`"".split(",") = [""]`). -/
def pySplit (sep : Char) (s : String) : List String := pySplitAux sep s.toList []

/-- Python `s.strip()`: drop whitespace from both ends. -/
def pyStrip (s : String) : String :=
  ((s.toList.dropWhile Char.isWhitespace).reverse.dropWhile Char.isWhitespace).reverse.asString

/-- Python `sep.join(xs)`. -/
def joinWith (sep : String) : List String → String
  | [] => ""
  | [x] => x
  | x :: y :: xs => x ++ sep ++ joinWith sep (y :: xs)

mutual
/-- Python `repr` of a `Value` (string elements are quoted).  Only the
`vnone`, `vstr` and `vnum` cases are ever evaluated by the claims; the
list/dict cases mirror Python's rendering shape. -/
def pyReprV : Value → String
  | .vnone => "None"
  | .vstr s => "\x27" ++ s ++ "\x27"
  | .vnum n => toString n
  | .vlist xs => "[" ++ joinWith ", " (pyReprList xs) ++ "]"
  | .vdict kvs => "\x7b" ++ joinWith ", " (pyReprPairs kvs) ++ "\x7d"

def pyReprList : List Value → List String
  | [] => []
  | v :: vs => pyReprV v :: pyReprList vs

def pyReprPairs : List (String × Value) → List String
  | [] => []
  | (k, v) :: kvs => ("\x27" ++ k ++ "\x27: " ++ pyReprV v) :: pyReprPairs kvs
end

/-- Python `str` of a `Value` (`str` of a string is the string itself,
`str(None) = "None"`, containers render via `repr`). -/
def pyStr : Value → String
  | .vstr s => s
  | v => pyReprV v

/-- Python truthiness of a `Value`. -/
def truthy : Value → Bool
  | .vnone => false
  | .vstr s => s != ""
  | .vnum n => n != 0
  | .vlist xs => !xs.isEmpty
  | .vdict kvs => !kvs.isEmpty

/-- Truthiness of an optional value (`none` is Python `None`). -/
def truthyOpt : Option Value → Bool
  | none => false
  | some v => truthy v

/-- Numeric value of a list of decimal digit characters. -/
def digitsVal (ds : List Char) : Nat :=
  ds.foldl (fun a c => a * 10 + (c.toNat - 48)) 0

/-- Python `float(s)` restricted to the shapes that reach it in this
program: optional integer digits, optionally followed by `.` and more
digits, with at least one digit overall (the regex groups fed to
`to_float` are always of this shape, possibly empty).  `none` models the
`ValueError` that `to_float` swallows. -/
def pyFloat (s : String) : Option ℚ :=
  let cs := s.toList
  let intDs := cs.takeWhile Char.isDigit
  match cs.dropWhile Char.isDigit with
  | [] => if intDs.isEmpty then none else some ((digitsVal intDs : ℚ))
  | '.' :: r2 =>
    let fracDs := r2.takeWhile Char.isDigit
    if !(r2.dropWhile Char.isDigit).isEmpty then none
    else if intDs.isEmpty && fracDs.isEmpty then none
    else some ((digitsVal intDs : ℚ) + (digitsVal fracDs : ℚ) / ((10 : ℚ) ^ fracDs.length))
  | _ => none

/-- `to_float` from `api.py`, on the string inputs it receives from
`parse_budget_range` (its only caller): `None` for empty-after-strip
input, otherwise `float` of the input with `$`, `,` and surrounding
whitespace removed, with any parse failure mapped to `None`. -/
def to_float (x : String) : Option ℚ :=
  if pyStrip x = "" then none
  else pyFloat (pyStrip (strReplace (strReplace x "$" "") "," ""))

/-- Match `\d+(\.\d+)?` at the head of the input (greedy; for this pattern
greedy matching needs no backtracking, see the module comment).  Returns
the matched characters and the remainder. -/
def matchNumber (cs : List Char) : Option (List Char × List Char) :=
  match cs.takeWhile Char.isDigit, cs.dropWhile Char.isDigit with
  | [], _ => none
  | ds, rest =>
    match rest with
    | '.' :: r2 =>
      match r2.takeWhile Char.isDigit, r2.dropWhile Char.isDigit with
      | [], _ => some (ds, rest)
      | fs, r3 => some (ds ++ '.' :: fs, r3)
    | _ => some (ds, rest)

/-- `\s*`: skip whitespace. -/
def skipWs (cs : List Char) : List Char := cs.dropWhile Char.isWhitespace

/-- Match the separator alternation `(?:-|to|–|—|\.\.)` of `RANGE_PATTERN`
(case-insensitive `to`).  The alternatives start with distinct characters,
so first-match is the regex semantics. -/
def matchSep : List Char → Option (List Char)
  | '-' :: r => some r
  | '–' :: r => some r
  | '—' :: r => some r
  | '.' :: '.' :: r => some r
  | c1 :: c2 :: r =>
    if (c1 == 't' || c1 == 'T') && (c2 == 'o' || c2 == 'O') then some r else none
  | _ => none

/-- Attempt to match `RANGE_PATTERN` starting exactly at the head of the
input; on success return the text of the named groups `min` and `max`. -/
def tryRangeAt (cs : List Char) : Option (String × String) :=
  match matchNumber cs with
  | none => none
  | some (minCs, r1) =>
    match matchSep (skipWs r1) with
    | none => none
    | some r2 =>
      match matchNumber (skipWs r2) with
      | none => none
      | some (maxCs, _) => some (minCs.asString, maxCs.asString)

/-- `RANGE_PATTERN.search`: try each start position left to right. -/
def rangeSearchAux : List Char → Option (String × String)
  | [] => none
  | c :: rest =>
    match tryRangeAt (c :: rest) with
    | some r => some r
    | none => rangeSearchAux rest

/-- `RANGE_PATTERN.search(s)` returning the `min`/`max` group texts. -/
def rangeSearch (s : String) : Option (String × String) :=
  rangeSearchAux s.toList

/-- `re.findall(r"\d+(\.\d+)?", s)`: Python returns, for each
non-overlapping match, the text of the single capture group — the
fractional part — or the empty string when that optional group did not
participate.  This scanner reproduces exactly that. -/
def findNumGroupsAux : Nat → List Char → List String
  | _, [] => []
  | 0, _ => []
  | fuel + 1, c :: rest =>
    if c.isDigit then
      match rest.dropWhile Char.isDigit with
      | '.' :: r2 =>
        match r2.takeWhile Char.isDigit with
        | [] => "" :: findNumGroupsAux fuel ('.' :: r2)
        | f :: fs => ('.' :: f :: fs).asString :: findNumGroupsAux fuel (r2.dropWhile Char.isDigit)
      | r1 => "" :: findNumGroupsAux fuel r1
    else findNumGroupsAux fuel rest

/-- The group list of `re.findall(r"\d+(\.\d+)?", s)`.  As with
`replaceAux`, each scanner step consumes at least one character, so fuel
equal to the input length never runs out. -/
def findNumGroups (s : String) : List String :=
  findNumGroupsAux s.toList.length s.toList

/-- Lines 173–177 of `api.py`: swap the parsed bounds when both are
present and `lo > hi`, otherwise return them as parsed. -/
def orderRange (lo hi : Option ℚ) : Option ℚ × Option ℚ :=
  match lo, hi with
  | some l, some h => if l > h then (some h, some l) else (some l, some h)
  | _, _ => (lo, hi)

/-- Line 170 of `api.py`: strip the currency words `$`, `USD`, `usd`,
`dollars` (in that order, case-sensitive as written). -/
def stripCurrency (t : String) : String :=
  strReplace (strReplace (strReplace (strReplace t "$" "") "USD" "") "usd" "") "dollars" ""

/-- `parse_budget_range` from `api.py`.  The argument is the value picked
from the form (`none` is Python `None`). -/
def parse_budget_range (raw : Option Value) : Option ℚ × Option ℚ :=
  match raw with
  | none => (none, none)
  | some v =>
    match rangeSearch (stripCurrency (pyStr v)) with
    | some (mn, mx) => orderRange (to_float mn) (to_float mx)
    | none =>
      match findNumGroups (stripCurrency (pyStr v)) with
      | [g] => (none, to_float g)
      | _ => (none, none)

/-- `coerce_to_list` from `api.py`.  The argument is a picked form value;
`none` is Python `None` (and `vnone` is the same value, should it arrive
wrapped). -/
def coerce_to_list (v : Option Value) : List String :=
  match v with
  | none => []
  | some .vnone => []
  | some (.vlist xs) => (xs.map (fun x => pyStrip (pyStr x))).filter (fun s => s != "")
  | some w =>
    ((pySplit ',' (strReplace (pyStr w) ";" ",")).map pyStrip).filter (fun s => s != "")

/-- The tokens a single argument contributes to `join_terms`: `None` is
skipped, a list contributes its trimmed non-empty elements, any other
value is stringified, comma-split, trimmed, with empties dropped. -/
def joinTokens : Value → List String
  | .vnone => []
  | .vlist xs => (xs.map (fun x => pyStrip (pyStr x))).filter (fun s => s != "")
  | v => ((pySplit ',' (pyStr v)).map pyStrip).filter (fun s => s != "")

/-- `join_terms` from `api.py`: flatten the arguments into trimmed
non-empty tokens in order and join them with single spaces. -/
def join_terms (parts : List Value) : String :=
  joinWith " " (parts.flatMap joinTokens)

/-- `pick` from `api.py`: first key present in the payload whose value is
neither `None` nor the empty string. -/
def pick (form : Payload) : List String → Option Value
  | [] => none
  | k :: ks =>
    match List.lookup k form with
    | some .vnone => pick form ks
    | some (.vstr "") => pick form ks
    | some v => some v
    | none => pick form ks

/-- `flatten_payload` from `api.py`: when a `contact` sub-dict is present,
the result maps `k` to the top-level value when `k ≠ "contact"` is a
top-level key, else to `contact[k]`.  The association list puts the
top-level pairs first so that `List.lookup` realizes the precedence
(`base.update` with the top-level pairs in Python). -/
def flatten_payload (raw : Payload) : Payload :=
  match List.lookup "contact" raw with
  | some (.vdict c) => raw.filter (fun kv => kv.1 != "contact") ++ c
  | _ => raw

/-- Alias lists probed by `build_query_from_form`, in source order. -/
def recipientKeys : List String := ["recipient_namenickname", "recipient_name", "recipient"]

def relationshipKeys : List String := ["relationship_to_you", "relationship"]

def ageRangeKeys : List String := ["age_range"]

def genderKeys : List String := ["genderpronouns", "gender_pronouns", "gender"]

def occasionKeys : List String := ["occasion"]

def hobbiesKeys : List String := ["hobbiesinterests", "hobbies", "interests"]

def brandsKeys : List String := ["favorite_brandsstores", "favorite_brands", "brand_likes"]

def colorsKeys : List String := ["favorite_colorsstyles", "favorite_colors", "style"]

def dislikesKeys : List String := ["anything_they_dont_like__avoid", "dislikes", "avoid"]

def giftTypeKeys : List String := ["gift_type_preference", "gift_type"]

def cityKeys : List String := ["locationcity", "city"]

def budgetKeys : List String := ["budget_range", "budget"]

/-- Every key `build_query_from_form` recognizes. -/
def recognizedKeys : List String :=
  recipientKeys ++ relationshipKeys ++ ageRangeKeys ++ genderKeys ++ occasionKeys ++
  hobbiesKeys ++ brandsKeys ++ colorsKeys ++ dislikesKeys ++ giftTypeKeys ++
  cityKeys ++ budgetKeys

/-- The primary query string (lines 235–242): `join_terms(relationship,
occasion, hobbies_interests, favorite_brands, favorite_colors_styles,
gift_type_pref)`, coerced lists passed through as Python lists. -/
def primaryQuery (f : Payload) : String :=
  join_terms
    [(pick f relationshipKeys).getD .vnone,
     (pick f occasionKeys).getD .vnone,
     .vlist ((coerce_to_list (pick f hobbiesKeys)).map .vstr),
     .vlist ((coerce_to_list (pick f brandsKeys)).map .vstr),
     .vlist ((coerce_to_list (pick f colorsKeys)).map .vstr),
     (pick f giftTypeKeys).getD .vnone]

/-- The soft-term list (lines 244–252): `str` of age range, gender and
city when truthy, then each dislike prefixed with `not `. -/
def softTerms (f : Payload) : List String :=
  (if truthyOpt (pick f ageRangeKeys) then [pyStr ((pick f ageRangeKeys).getD .vnone)] else []) ++
  (if truthyOpt (pick f genderKeys) then [pyStr ((pick f genderKeys).getD .vnone)] else []) ++
  (if truthyOpt (pick f cityKeys) then [pyStr ((pick f cityKeys).getD .vnone)] else []) ++
  (coerce_to_list (pick f dislikesKeys)).map (fun d => "not " ++ d)

/-- Lines 254–258 and the final `q.strip()` (line 278): append the soft
terms when any, fall back to `"gift ideas"` when the composed string is
blank, and return the trimmed string. -/
def finalizeQ (q0 : String) (soft : List String) : String :=
  let q1 := if soft.isEmpty then q0 else q0 ++ " " ++ joinWith " " soft
  let q2 := if pyStrip q1 = "" then "gift ideas" else q1
  pyStrip q2

/-- The fields of the returned dict used by the search call. -/
structure BuiltQuery where
  q : String
  price_min : Option ℚ
  price_max : Option ℚ
deriving DecidableEq

/-- `build_query_from_form` from `api.py`, restricted to the fields the
search call consumes (the `raw_mapping` echo is a diagnostic copy of the
same picked values). -/
def build_query_from_form (raw : Payload) : BuiltQuery :=
  let f := flatten_payload raw
  let b := parse_budget_range (pick f budgetKeys)
  { q := finalizeQ (primaryQuery f) (softTerms f)
    price_min := b.1
    price_max := b.2 }

/-- Environment configuration: `EPN_CAMPAIGN_ID` is `os.getenv` (absent or
any string), `EPN_CUSTOM_ID` is `os.getenv` with default `"giftgiver"`. -/
structure Config where
  epnCampaignId : Option String
  epnCustomId : String

/-- `affiliate_wrap` from `api.py`: no-op when the campaign id is falsy
(absent or empty), otherwise append `campid=...` and, when the custom id
is truthy, `customid=...` to the URL with `&` or `?`. -/
def affiliate_wrap (cfg : Config) (url : String) : String :=
  match cfg.epnCampaignId with
  | none => url
  | some c =>
    if c = "" then url
    else
      let sep := if url.toList.contains (Char.ofNat 63) then "&" else "?"
      let parts := [some ("campid=" ++ c),
                    if cfg.epnCustomId != "" then some ("customid=" ++ cfg.epnCustomId) else none]
      url ++ sep ++ joinWith "&" (parts.filterMap id)

/-- The nested `price` object of an eBay item summary. -/
structure PriceObj where
  value : Option String
  currency : Option String

/-- An image object (`image` or a thumbnail). -/
structure ImageObj where
  imageUrl : Option String

/-- The nested `seller` object. -/
structure SellerObj where
  username : Option String

/-- An eBay Browse `itemSummaries` record, with exactly the fields the
mapping loop of `call_ebay_browse_search` reads; every field may be
missing.  (Restricted to the upstream schema, every access the loop
performs is total: `dict.get` with defaults, truthiness tests, and `[0]`
guarded by non-emptiness; so the loop never raises, which the totality of
`mapSummary` below reflects.) -/
structure Summary where
  title : Option String
  itemWebUrl : Option String
  itemAffiliateWebUrl : Option String
  price : Option PriceObj
  image : Option ImageObj
  thumbnailImages : Option (List ImageObj)
  itemId : Option String
  condition : Option String
  seller : Option SellerObj

/-- The normalized output record appended to `out`. -/
structure Item where
  title : Option String
  price : Option String
  currency : Option String
  url : String
  image : Option String
  item_id : Option String
  condition : Option String
  seller : Option String

/-- Line 123: `it.get("itemWebUrl") or it.get("itemAffiliateWebUrl") or ""`
(Python `or` takes the first truthy operand). -/
def selectUrl (it : Summary) : String :=
  match it.itemWebUrl with
  | some s =>
    if s != "" then s
    else match it.itemAffiliateWebUrl with
         | some a => if a != "" then a else ""
         | none => ""
  | none =>
    match it.itemAffiliateWebUrl with
    | some a => if a != "" then a else ""
    | none => ""

/-- Lines 126–130: primary image URL when truthy, else the first
thumbnail's `imageUrl` when the thumbnail list is truthy, else `None`. -/
def selectImage (it : Summary) : Option String :=
  match it.image.bind ImageObj.imageUrl with
  | some s =>
    if s != "" then some s
    else match it.thumbnailImages with
         | some (t :: _) => t.imageUrl
         | _ => none
  | none =>
    match it.thumbnailImages with
    | some (t :: _) => t.imageUrl
    | _ => none

/-- The per-record mapping of `call_ebay_browse_search` (lines 121–143). -/
def mapSummary (cfg : Config) (it : Summary) : Item :=
  let url := selectUrl it
  { title := it.title
    price := it.price.bind PriceObj.value
    currency := it.price.bind PriceObj.currency
    url := if url != "" then affiliate_wrap cfg url else ""
    image := selectImage it
    item_id := it.itemId
    condition := it.condition
    seller := it.seller.bind SellerObj.username }

/-- Outcome of one client-credentials exchange (the POST to the eBay OAuth
endpoint), as consumed by `get_ebay_oauth_token`. -/
inductive ExchangeResult where
  | failure (status : Nat) (body : String)
  | success (access_token : String) (expires_in : Option Int)

/-- Result of `get_ebay_oauth_token`: returned token, resulting cache
slot, and how many outbound credential exchanges were performed. -/
structure TokenFetch where
  token : String
  cache : Option (String × ℚ)
  calls : Nat

/-- Lines 64–82 of `api.py`: perform the exchange for `scope` and on
success overwrite the single cache slot with
`(access_token, now + int(j.get("expires_in", 7200)))`. -/
def refreshToken (scope : String) (now : ℚ)
    (exchange : String → ExchangeResult) : Except (Nat × String) TokenFetch :=
  match exchange scope with
  | .failure st body => .error (st, body)
  | .success t e => .ok ⟨t, some (t, now + ((e.getD 7200 : Int) : ℚ)), 1⟩

/-- `get_ebay_oauth_token` from `api.py`.  The single cache slot
(`_OAUTH_CACHE["app_token"]`) and the clock are explicit arguments; the
exchange is an oracle from the requested scope to its outcome. -/
def get_ebay_oauth_token (scope : String) (cache : Option (String × ℚ)) (now : ℚ)
    (exchange : String → ExchangeResult) : Except (Nat × String) TokenFetch :=
  match cache with
  | some (tok, exp) =>
    if now < exp - 60 then .ok ⟨tok, some (tok, exp), 0⟩
    else refreshToken scope now exchange
  | none => refreshToken scope now exchange

/-! ## Helper lemmas -/

/-- When `orderRange` yields two present bounds, they are ordered. -/
theorem orderRange_le (a b : Option ℚ) (l h : ℚ)
    (heq : orderRange a b = (some l, some h)) : l ≤ h := by
  cases a with
  | none =>
    cases b <;> simp only [orderRange] at heq <;>
      exact Option.noConfusion (congrArg Prod.fst heq)
  | some x =>
    cases b with
    | none =>
      simp only [orderRange] at heq
      exact Option.noConfusion (congrArg Prod.snd heq)
    | some y =>
      simp only [orderRange] at heq
      by_cases hxy : x > y
      · rw [if_pos hxy] at heq
        obtain ⟨h1, h2⟩ := Prod.mk.injEq .. ▸ heq
        obtain rfl := Option.some.inj h1
        obtain rfl := Option.some.inj h2
        exact le_of_lt hxy
      · rw [if_neg hxy] at heq
        obtain ⟨h1, h2⟩ := Prod.mk.injEq .. ▸ heq
        obtain rfl := Option.some.inj h1
        obtain rfl := Option.some.inj h2
        exact le_of_not_lt hxy

/-- Whenever `parse_budget_range` produces two present bounds, they are
ordered low-then-high. -/
theorem parse_budget_range_ordered (raw : Option Value) (lo hi : ℚ)
    (heq : parse_budget_range raw = (some lo, some hi)) : lo ≤ hi := by
  cases raw with
  | none =>
    simp only [parse_budget_range] at heq
    exact Option.noConfusion (congrArg Prod.fst heq)
  | some v =>
    simp only [parse_budget_range] at heq
    cases hR : rangeSearch (stripCurrency (pyStr v)) with
    | some p =>
      obtain ⟨mn, mx⟩ := p
      rw [hR] at heq
      exact orderRange_le _ _ _ _ heq
    | none =>
      rw [hR] at heq
      cases hG : findNumGroups (stripCurrency (pyStr v)) with
      | nil =>
        rw [hG] at heq
        exact Option.noConfusion (congrArg Prod.fst heq)
      | cons g gs =>
        cases gs with
        | nil =>
          rw [hG] at heq
          exact Option.noConfusion (congrArg Prod.fst heq)
        | cons g2 gs2 =>
          rw [hG] at heq
          exact Option.noConfusion (congrArg Prod.fst heq)

/-- `pick` over keys none of which is in the payload yields `None`. -/
theorem pick_eq_none (f : Payload) (ks : List String)
    (h : ∀ k ∈ ks, List.lookup k f = none) : pick f ks = none := by
  induction ks with
  | nil => rfl
  | cons k ks ih =>
    have hk := h k (List.mem_cons_self k ks)
    simp only [pick, hk]
    exact ih (fun k2 hk2 => h k2 (List.mem_cons_of_mem _ hk2))

/-- `List.lookup` distributes over append, preferring the first list. -/
theorem lookup_append (k : String) (l1 l2 : Payload) :
    List.lookup k (l1 ++ l2) =
      (List.lookup k l1).orElse (fun _ => List.lookup k l2) := by
  induction l1 with
  | nil => rfl
  | cons kv rest ih =>
    obtain ⟨a, b⟩ := kv
    by_cases h : k == a
    · simp [List.lookup, h]
    · simp only [List.cons_append, List.lookup]
      rw [Bool.of_not_eq_true h]
      exact ih

/-- `finalizeQ` never yields the empty string. -/
theorem finalizeQ_ne_empty (q0 : String) (soft : List String) :
    finalizeQ q0 soft ≠ "" := by
  simp only [finalizeQ]
  by_cases h : pyStrip (if soft.isEmpty then q0 else q0 ++ " " ++ joinWith " " soft) = ""
  · rw [if_pos h]; decide
  · rw [if_neg h]; exact h

/-! ## Claims -/

/-- C3: every pair of present bounds returned by `parse_budget_range` is
ordered low-then-high (a matched range with `min > max` is swapped), so
the `budget_min ≤ budget_max` invariant holds for every built query; in
particular `"$50-100"` parses to `(50, 100)` and `"100-50"` also parses
to `(50, 100)`. -/
theorem c3_budget_bounds_ordered :
    (∀ raw lo hi, parse_budget_range raw = (some lo, some hi) → lo ≤ hi) ∧
    (∀ form lo hi, (build_query_from_form form).price_min = some lo →
       (build_query_from_form form).price_max = some hi → lo ≤ hi) ∧
    parse_budget_range (some (.vstr "$50-100")) = (some 50, some 100) ∧
    parse_budget_range (some (.vstr "100-50")) = (some 50, some 100) := by
  refine ⟨fun raw lo hi h => parse_budget_range_ordered raw lo hi h, ?_, by decide, by decide⟩
  intro form lo hi h1 h2
  have h1x : (parse_budget_range (pick (flatten_payload form) budgetKeys)).1 = some lo := h1
  have h2x : (parse_budget_range (pick (flatten_payload form) budgetKeys)).2 = some hi := h2
  exact parse_budget_range_ordered _ lo hi (by rw [← h1x, ← h2x])

/-- C3 witness: the ordered-bounds implication applied at the concrete
input `"$50-100"`. -/
theorem c3_budget_bounds_ordered_witness :
    parse_budget_range (some (.vstr "$50-100")) = (some 50, some 100) ∧ (50 : ℚ) ≤ 100 :=
  ⟨by decide, c3_budget_bounds_ordered.1 (some (.vstr "$50-100")) 50 100 (by decide)⟩

/-- C1: contrary to the claim, an input whose stripped form contains
exactly one standalone integer does NOT yield that number as an upper
bound: `re.findall(r"\d+(\.\d+)?", s)` returns the fractional capture
group of each match (the empty string for `"75"`), so `to_float` receives
`""` and yields `None`; `"under 75 dollars"` therefore parses to
`(None, None)` where the spec promises `(None, 75.0)`.  The `"no budget"`
half of the claim does hold. -/
theorem c1_single_number_is_dropped :
    parse_budget_range (some (.vstr "under 75 dollars")) = (none, none) ∧
    findNumGroups (stripCurrency "under 75 dollars") = [""] ∧
    to_float "" = none ∧
    parse_budget_range (some (.vstr "no budget")) = (none, none) := by
  refine ⟨by decide, by decide, by decide, by decide⟩

/-- C4: `build_query_from_form` is total (the embedding is a total
function); a payload in which no recognized key is found after
flattening yields exactly the fallback query `"gift ideas"` with absent
budget bounds, and no payload whatsoever yields an empty query string. -/
theorem c4_build_query_fallback :
    (∀ raw : Payload, (∀ k ∈ recognizedKeys, List.lookup k (flatten_payload raw) = none) →
       build_query_from_form raw = ⟨"gift ideas", none, none⟩) ∧
    (∀ raw : Payload, (build_query_from_form raw).q ≠ "") := by
  constructor
  · intro raw h
    have hp : ∀ ks : List String, (∀ k ∈ ks, k ∈ recognizedKeys) →
        pick (flatten_payload raw) ks = none :=
      fun ks hsub => pick_eq_none _ _ (fun k hk => h k (hsub k hk))
    have h1 : pick (flatten_payload raw) relationshipKeys = none := hp _ (by decide)
    have h2 : pick (flatten_payload raw) occasionKeys = none := hp _ (by decide)
    have h3 : pick (flatten_payload raw) hobbiesKeys = none := hp _ (by decide)
    have h4 : pick (flatten_payload raw) brandsKeys = none := hp _ (by decide)
    have h5 : pick (flatten_payload raw) colorsKeys = none := hp _ (by decide)
    have h6 : pick (flatten_payload raw) giftTypeKeys = none := hp _ (by decide)
    have h7 : pick (flatten_payload raw) ageRangeKeys = none := hp _ (by decide)
    have h8 : pick (flatten_payload raw) genderKeys = none := hp _ (by decide)
    have h9 : pick (flatten_payload raw) cityKeys = none := hp _ (by decide)
    have h10 : pick (flatten_payload raw) dislikesKeys = none := hp _ (by decide)
    have h11 : pick (flatten_payload raw) budgetKeys = none := hp _ (by decide)
    have hq : build_query_from_form raw =
        { q := finalizeQ (primaryQuery (flatten_payload raw)) (softTerms (flatten_payload raw)),
          price_min := (parse_budget_range (pick (flatten_payload raw) budgetKeys)).1,
          price_max := (parse_budget_range (pick (flatten_payload raw) budgetKeys)).2 } := rfl
    rw [hq]
    have hPrim : primaryQuery (flatten_payload raw) = "" := by
      simp only [primaryQuery, h1, h2, h3, h4, h5, h6]
      decide
    have hSoft : softTerms (flatten_payload raw) = [] := by
      simp only [softTerms, h7, h8, h9, h10]
      decide
    rw [hPrim, hSoft, h11]
    decide
  · intro raw
    exact finalizeQ_ne_empty (primaryQuery (flatten_payload raw)) (softTerms (flatten_payload raw))

/-- C4 witness: the fallback equality applied at the empty payload, whose
flattening contains no recognized key. -/
theorem c4_build_query_fallback_witness :
    (∀ k ∈ recognizedKeys, List.lookup k (flatten_payload ([] : Payload)) = none) ∧
    build_query_from_form ([] : Payload) = ⟨"gift ideas", none, none⟩ :=
  ⟨fun _ _ => rfl, c4_build_query_fallback.1 [] (fun _ _ => rfl)⟩

/-- C5: the query string is always the finalization of the primary terms
(`join_terms` over relationship, occasion, hobbies/interests, favorite
brands, favorite colors/styles, gift-type preference, in that order)
followed by the soft terms (age range, gender, city when truthy, then
each dislike prefixed with `not `, in that fixed order); the example
payload yields the query `"birthday chess reading"` with bounds 20/40. -/
theorem c5_query_term_order :
    (∀ raw : Payload, (build_query_from_form raw).q =
        finalizeQ (primaryQuery (flatten_payload raw)) (softTerms (flatten_payload raw))) ∧
    (∀ f : Payload, primaryQuery f = join_terms
        [(pick f relationshipKeys).getD .vnone,
         (pick f occasionKeys).getD .vnone,
         .vlist ((coerce_to_list (pick f hobbiesKeys)).map .vstr),
         .vlist ((coerce_to_list (pick f brandsKeys)).map .vstr),
         .vlist ((coerce_to_list (pick f colorsKeys)).map .vstr),
         (pick f giftTypeKeys).getD .vnone]) ∧
    (∀ f : Payload, softTerms f =
        (if truthyOpt (pick f ageRangeKeys) then [pyStr ((pick f ageRangeKeys).getD .vnone)] else []) ++
        (if truthyOpt (pick f genderKeys) then [pyStr ((pick f genderKeys).getD .vnone)] else []) ++
        (if truthyOpt (pick f cityKeys) then [pyStr ((pick f cityKeys).getD .vnone)] else []) ++
        (coerce_to_list (pick f dislikesKeys)).map (fun d => "not " ++ d)) ∧
    (build_query_from_form
      [("hobbies", .vstr "chess, reading"), ("budget", .vstr "$20-40"),
       ("occasion", .vstr "birthday")]).q = "birthday chess reading" ∧
    (build_query_from_form
      [("hobbies", .vstr "chess, reading"), ("budget", .vstr "$20-40"),
       ("occasion", .vstr "birthday")]).price_min = some 20 ∧
    (build_query_from_form
      [("hobbies", .vstr "chess, reading"), ("budget", .vstr "$20-40"),
       ("occasion", .vstr "birthday")]).price_max = some 40 :=
  ⟨fun _ => rfl, fun _ => rfl, fun _ => rfl, by decide, by decide, by decide⟩

/-- C8: `coerce_to_list` returns the empty list for absent input, trims
and drops empties element-wise for list input, and for scalar input
normalizes semicolons to commas, comma-splits, trims and drops empties;
order is preserved and duplicates are kept, and
`coerce_to_list "a, b; c" = ["a", "b", "c"]`. -/
theorem c8_coerce_to_list_spec :
    coerce_to_list none = [] ∧
    (∀ xs, coerce_to_list (some (.vlist xs)) =
        (xs.map (fun x => pyStrip (pyStr x))).filter (fun s => s != "")) ∧
    (∀ s, coerce_to_list (some (.vstr s)) =
        ((pySplit ',' (strReplace s ";" ",")).map pyStrip).filter (fun t => t != "")) ∧
    coerce_to_list (some (.vstr "a, b; c")) = ["a", "b", "c"] ∧
    coerce_to_list (some (.vstr "b, a, b")) = ["b", "a", "b"] :=
  ⟨rfl, fun _ => rfl, fun _ => rfl, by decide, by decide⟩

/-- C9: with a `contact` sub-dict present, every key resolves to the
top-level value when the key occurs top-level (outside the removed
`contact` entry) and to the contact value otherwise; without a `contact`
sub-dict the payload is returned as-is. -/
theorem c9_flatten_payload_spec :
    (∀ (raw : Payload) (c : List (String × Value)),
        List.lookup "contact" raw = some (.vdict c) →
        ∀ k, List.lookup k (flatten_payload raw) =
          (List.lookup k (raw.filter (fun kv => kv.1 != "contact"))).orElse
            (fun _ => List.lookup k c)) ∧
    (∀ raw : Payload, (∀ c, List.lookup "contact" raw ≠ some (.vdict c)) →
        flatten_payload raw = raw) := by
  constructor
  · intro raw c hc k
    unfold flatten_payload
    rw [hc]
    exact lookup_append k _ c
  · intro raw h
    unfold flatten_payload
    split
    · next c heq => exact absurd heq (h c)
    · rfl

/-- C9 witness: flattening a payload whose `contact` sub-dict collides
with a top-level key; the top-level value wins and non-colliding contact
keys are merged in. -/
theorem c9_flatten_payload_witness :
    List.lookup "contact"
        ([("contact", .vdict [("city", .vstr "Oslo"), ("occasion", .vstr "xmas")]),
          ("occasion", .vstr "birthday")] : Payload)
      = some (.vdict [("city", .vstr "Oslo"), ("occasion", .vstr "xmas")]) ∧
    List.lookup "occasion"
        (flatten_payload
          [("contact", .vdict [("city", .vstr "Oslo"), ("occasion", .vstr "xmas")]),
           ("occasion", .vstr "birthday")])
      = some (.vstr "birthday") ∧
    List.lookup "city"
        (flatten_payload
          [("contact", .vdict [("city", .vstr "Oslo"), ("occasion", .vstr "xmas")]),
           ("occasion", .vstr "birthday")])
      = some (.vstr "Oslo") := by
  refine ⟨rfl, ?_, ?_⟩
  · rw [c9_flatten_payload_spec.1
      [("contact", .vdict [("city", .vstr "Oslo"), ("occasion", .vstr "xmas")]),
       ("occasion", .vstr "birthday")]
      [("city", .vstr "Oslo"), ("occasion", .vstr "xmas")] rfl "occasion"]
    rfl
  · rw [c9_flatten_payload_spec.1
      [("contact", .vdict [("city", .vstr "Oslo"), ("occasion", .vstr "xmas")]),
       ("occasion", .vstr "birthday")]
      [("city", .vstr "Oslo"), ("occasion", .vstr "xmas")] rfl "city"]
    rfl

/-- C2: the per-record mapping of `call_ebay_browse_search` is a total
function of the record (it never raises on a schema-shaped record): every
missing sub-field degrades to `none`, the url prefers `itemWebUrl`, falls
back to `itemAffiliateWebUrl` and is otherwise empty, and the image
prefers `image.imageUrl`, falling back to the first thumbnail. -/
theorem c2_item_mapping (cfg : Config) (it : Summary) :
    ((mapSummary cfg it).title = it.title) ∧
    (it.price = none → (mapSummary cfg it).price = none ∧ (mapSummary cfg it).currency = none) ∧
    (∀ p, it.price = some p →
       (mapSummary cfg it).price = p.value ∧ (mapSummary cfg it).currency = p.currency) ∧
    ((mapSummary cfg it).item_id = it.itemId) ∧
    ((mapSummary cfg it).condition = it.condition) ∧
    (it.seller = none → (mapSummary cfg it).seller = none) ∧
    (∀ s, it.seller = some s → (mapSummary cfg it).seller = s.username) ∧
    (∀ w, it.itemWebUrl = some w → w ≠ "" → (mapSummary cfg it).url = affiliate_wrap cfg w) ∧
    ((it.itemWebUrl = none ∨ it.itemWebUrl = some "") →
       ∀ a, it.itemAffiliateWebUrl = some a → a ≠ "" →
         (mapSummary cfg it).url = affiliate_wrap cfg a) ∧
    ((it.itemWebUrl = none ∨ it.itemWebUrl = some "") →
       (it.itemAffiliateWebUrl = none ∨ it.itemAffiliateWebUrl = some "") →
       (mapSummary cfg it).url = "") ∧
    (∀ io u, it.image = some io → io.imageUrl = some u → u ≠ "" →
       (mapSummary cfg it).image = some u) ∧
    ((it.image.bind ImageObj.imageUrl = none ∨ it.image.bind ImageObj.imageUrl = some "") →
       ∀ t ts, it.thumbnailImages = some (t :: ts) → (mapSummary cfg it).image = t.imageUrl) ∧
    ((it.image.bind ImageObj.imageUrl = none ∨ it.image.bind ImageObj.imageUrl = some "") →
       (it.thumbnailImages = none ∨ it.thumbnailImages = some []) →
       (mapSummary cfg it).image = none) := by
  refine ⟨rfl, ?_, ?_, rfl, rfl, ?_, ?_, ?_, ?_, ?_, ?_, ?_, ?_⟩
  · intro hp
    constructor <;> simp [mapSummary, hp]
  · intro p hp
    constructor <;> simp [mapSummary, hp]
  · intro hs; simp [mapSummary, hs]
  · intro s hs; simp [mapSummary, hs]
  · intro w hw hne
    simp [mapSummary, selectUrl, hw, hne]
  · intro hweb a ha hne
    rcases hweb with hw | hw <;> simp [mapSummary, selectUrl, hw, ha, hne]
  · intro hweb haff
    rcases hweb with hw | hw <;> rcases haff with ha | ha <;>
      simp [mapSummary, selectUrl, hw, ha]
  · intro io u hio hu hne
    simp [mapSummary, selectImage, hio, hu, hne]
  · intro hprim t ts hthumb
    rcases hprim with hp | hp <;> simp [mapSummary, selectImage, hp, hthumb]
  · intro hprim hthumb
    rcases hprim with hp | hp <;> rcases hthumb with ht | ht <;>
      simp [mapSummary, selectImage, hp, ht]

/-- C2 witness: the mapping applied to the record with every field
missing yields the all-absent item with an empty url. -/
theorem c2_item_mapping_witness :
    (mapSummary ⟨none, "giftgiver"⟩ ⟨none, none, none, none, none, none, none, none, none⟩).url = "" ∧
    (mapSummary ⟨none, "giftgiver"⟩ ⟨none, none, none, none, none, none, none, none, none⟩).image = none ∧
    (mapSummary ⟨none, "giftgiver"⟩ ⟨none, none, none, none, none, none, none, none, none⟩).price = none ∧
    (mapSummary ⟨none, "giftgiver"⟩ ⟨none, none, none, none, none, none, none, none, none⟩).seller = none := by
  obtain ⟨h1, h2, h3, h4, h5, h6, h7, h8, h9, h10, h11, h12, h13⟩ :=
    c2_item_mapping ⟨none, "giftgiver"⟩ ⟨none, none, none, none, none, none, none, none, none⟩
  exact ⟨h10 (Or.inl rfl) (Or.inl rfl), h13 (Or.inl rfl) (Or.inl rfl), (h2 rfl).1, h6 rfl⟩

/-- C7: with a configured (truthy) campaign id, `affiliate_wrap` appends
`campid=<id>` (and `customid=<custom>` when a custom id is configured) to
the URL, joined with `&` when the URL already contains `?` and with `?`
otherwise; with no campaign id every URL is returned unchanged; in the
record mapping a non-empty selected URL is wrapped exactly once and an
empty one stays empty. -/
theorem c7_affiliate_wrapping :
    (∀ (cfg : Config) (url c : String), cfg.epnCampaignId = some c → c ≠ "" →
       affiliate_wrap cfg url =
         url ++ (if url.toList.contains (Char.ofNat 63) then "&" else "?") ++
           ("campid=" ++ c ++
             (if cfg.epnCustomId != "" then "&customid=" ++ cfg.epnCustomId else ""))) ∧
    (∀ (cfg : Config) (url : String),
       cfg.epnCampaignId = none ∨ cfg.epnCampaignId = some "" →
       affiliate_wrap cfg url = url) ∧
    (∀ (cfg : Config) (it : Summary),
       (mapSummary cfg it).url =
         if selectUrl it != "" then affiliate_wrap cfg (selectUrl it) else "") := by
  refine ⟨?_, ?_, fun cfg it => rfl⟩
  · intro cfg url c hc hne
    simp only [affiliate_wrap, hc]
    rw [if_neg hne]
    by_cases hcu : cfg.epnCustomId = ""
    · simp [hcu, joinWith, String.append_assoc]
    · have hpre : ∀ s : String, ("&" : String) ++ ("customid=" ++ s) = "&customid=" ++ s :=
        fun s => by rw [← String.append_assoc]; rfl
      simp [hcu, joinWith, String.append_assoc, hpre]
  · intro cfg url hc
    rcases hc with h | h <;> simp [affiliate_wrap, h]

/-- C7 witness: wrapping with a configured campaign id on URLs with and
without an existing query string, and the no-op with an absent id. -/
theorem c7_affiliate_wrapping_witness :
    (⟨some "CAMP", "giftgiver"⟩ : Config).epnCampaignId = some "CAMP" ∧
    affiliate_wrap ⟨some "CAMP", "giftgiver"⟩ "http://x/item" =
      "http://x/item" ++ "?" ++ ("campid=" ++ "CAMP" ++ ("&customid=" ++ "giftgiver")) ∧
    affiliate_wrap ⟨none, "giftgiver"⟩ "http://x/item" = "http://x/item" := by
  refine ⟨rfl, ?_, ?_⟩
  · have h := c7_affiliate_wrapping.1 ⟨some "CAMP", "giftgiver"⟩ "http://x/item" "CAMP" rfl
      (by decide)
    rw [h]
    decide
  · exact c7_affiliate_wrapping.2.1 ⟨none, "giftgiver"⟩ "http://x/item" (Or.inl rfl)

/-- C6: a warm cache (now strictly before expiry minus the 60-second
margin) is returned as-is with no outbound exchange and an unchanged
cache slot; otherwise exactly one exchange happens and, on success, the
slot is overwritten with `(access_token, now + expires_in)` — 7200 when
`expires_in` is absent — and that token is returned. -/
theorem c6_token_cache :
    (∀ (scope tok : String) (exp now : ℚ) (exchange : String → ExchangeResult),
       now < exp - 60 →
       get_ebay_oauth_token scope (some (tok, exp)) now exchange =
         .ok ⟨tok, some (tok, exp), 0⟩) ∧
    (∀ (scope : String) (cache : Option (String × ℚ)) (now : ℚ)
       (exchange : String → ExchangeResult) (t : String) (e : Option Int),
       (∀ tok exp, cache = some (tok, exp) → ¬ now < exp - 60) →
       exchange scope = .success t e →
       get_ebay_oauth_token scope cache now exchange =
         .ok ⟨t, some (t, now + ((e.getD 7200 : Int) : ℚ)), 1⟩) := by
  constructor
  · intro scope tok exp now exchange h
    simp [get_ebay_oauth_token, h]
  · intro scope cache now exchange t e hcold hex
    cases cache with
    | none => simp [get_ebay_oauth_token, refreshToken, hex]
    | some p =>
      obtain ⟨tok, exp⟩ := p
      have h := hcold tok exp rfl
      simp [get_ebay_oauth_token, h, refreshToken, hex]

/-- C6 witness: a warm hit at `now = 0` against expiry `1000`, and a cold
refresh from the empty cache with an absent `expires_in` defaulting to
7200. -/
theorem c6_token_cache_witness :
    ((0 : ℚ) < 1000 - 60) ∧
    get_ebay_oauth_token "https://api.ebay.com/oauth/api_scope" (some ("tok", 1000)) 0
        (fun _ => .failure 500 "unused") = .ok ⟨"tok", some ("tok", 1000), 0⟩ ∧
    get_ebay_oauth_token "https://api.ebay.com/oauth/api_scope" none 0
        (fun _ => .success "fresh" none) = .ok ⟨"fresh", some ("fresh", 0 + ((7200 : Int) : ℚ)), 1⟩ := by
  refine ⟨by norm_num, ?_, ?_⟩
  · exact c6_token_cache.1 _ "tok" 1000 0 _ (by norm_num)
  · exact c6_token_cache.2 _ none 0 _ "fresh" none (fun _ _ h => Option.noConfusion h) rfl

/-- C10: the cache key ignores the scope argument: after a successful
exchange cached at `now1`, a second call while the cache is warm returns
the same token for ANY scope and ANY exchange oracle, performing no
outbound call — the warm-cache result is independent of the scope. -/
theorem c10_scope_ignored :
    ∀ (scope1 scope2 : String) (ex1 ex2 : String → ExchangeResult)
      (now1 now2 : ℚ) (t : String) (e : Option Int),
      ex1 scope1 = .success t e →
      now2 < now1 + ((e.getD 7200 : Int) : ℚ) - 60 →
      get_ebay_oauth_token scope1 none now1 ex1 =
        .ok ⟨t, some (t, now1 + ((e.getD 7200 : Int) : ℚ)), 1⟩ ∧
      (∀ st, get_ebay_oauth_token scope1 none now1 ex1 = .ok st →
         get_ebay_oauth_token scope2 st.cache now2 ex2 = .ok ⟨t, st.cache, 0⟩) := by
  intro scope1 scope2 ex1 ex2 now1 now2 t e hex hwarm
  have hfirst : get_ebay_oauth_token scope1 none now1 ex1 =
      .ok ⟨t, some (t, now1 + ((e.getD 7200 : Int) : ℚ)), 1⟩ := by
    simp [get_ebay_oauth_token, refreshToken, hex]
  refine ⟨hfirst, ?_⟩
  intro st hst
  rw [hfirst] at hst
  obtain rfl := Except.ok.inj hst
  simp [get_ebay_oauth_token, hwarm]

/-- C10 witness: the two-call scenario with distinct scopes and oracles;
the second call returns the first call's token without an exchange. -/
theorem c10_scope_ignored_witness :
    ((fun _ : String => ExchangeResult.success "tokA" (some 100)) "scopeA" =
      .success "tokA" (some 100)) ∧
    ((10 : ℚ) < 0 + ((100 : Int) : ℚ) - 60) ∧
    get_ebay_oauth_token "scopeB"
        (some ("tokA", 0 + (((some (100 : Int)).getD 7200 : Int) : ℚ))) 10
        (fun _ => ExchangeResult.failure 500 "never called") =
      .ok ⟨"tokA", some ("tokA", 0 + (((some (100 : Int)).getD 7200 : Int) : ℚ)), 0⟩ := by
  refine ⟨rfl, by norm_num, ?_⟩
  have h := (c10_scope_ignored "scopeA" "scopeB"
      (fun _ => ExchangeResult.success "tokA" (some 100))
      (fun _ => ExchangeResult.failure 500 "never called")
      0 10 "tokA" (some 100) rfl (by norm_num))
  exact h.2 _ h.1

end GiftGiver
